import Mathlib

/-
Verification of the memory ingestion pipeline and vector-similarity retrieval
engine of the hackathon-super-memory-mcp-server repository.

The Python source is shallowly embedded as executable Lean definitions:

* Python strings are modelled as lists of characters (`Str`), with the string
  operations the source uses (`strip`, `lower`, `startswith`, `split`, `join`)
  re-implemented by structural recursion so that concrete runs reduce in the
  kernel.
* Python floats (embedding components, similarity scores) are modelled as
  rationals (`ℚ`).
* The external collaborators (OpenAI chat completion, OpenAI embeddings, the
  PostgreSQL connection) are parameters of the embedded functions: a remote
  call's outcome is an `Except` value supplied by the environment, matching the
  spec's view of them as external services specified at their interfaces.
* The pgvector cosine-distance operator `<=>` lives inside the database engine
  (an external collaborator), so `search_similar` is embedded relative to an
  arbitrary distance function `dist`; theorems about the query quantify over
  `dist`, and concrete counterexamples instantiate it.
* The mutable PostgreSQL table becomes an explicit `StoreState` threaded
  through the store operations; a run returns its result together with the
  resulting store state.
-/

namespace SuperMemory

/-- Python strings, modelled as lists of characters. -/
abbrev Str := List Char

/-- View of a Lean string literal as a `Str`. -/
def strOf (s : String) : Str := s.data

/-- Python `str.strip()` whitespace test (space, tab, newline, carriage return,
vertical tab, form feed), written over character codes. -/
def isPySpace (c : Char) : Bool :=
  c.toNat = 32 || c.toNat = 9 || c.toNat = 10 || c.toNat = 13 ||
    c.toNat = 11 || c.toNat = 12

/-- Python `str.strip()`: drop whitespace from both ends. -/
def pyStrip (s : Str) : Str :=
  ((s.dropWhile isPySpace).reverse.dropWhile isPySpace).reverse

/-- ASCII case folding for one character; the source only lowercases lines to
compare them against the ASCII markers `heading:` and `summary:`. -/
def lowerChar (c : Char) : Char :=
  if 65 ≤ c.toNat ∧ c.toNat ≤ 90 then Char.ofNat (c.toNat + 32) else c

/-- Python `str.lower()` (ASCII fragment used by the source). -/
def pyLower (s : Str) : Str := s.map lowerChar

/-- The newline character. -/
def nlChar : Char := Char.ofNat 10

/-- The colon character. -/
def colonChar : Char := Char.ofNat 58

/-- Python `content.split('\n')`. -/
def splitOnNl : Str → List Str
  | [] => [[]]
  | c :: cs =>
    if c = nlChar then [] :: splitOnNl cs
    else
      match splitOnNl cs with
      | [] => [[c]]
      | l :: ls => (c :: l) :: ls

/-- Python `line.split(':', 1)[1]`: everything after the first colon.  The
source only evaluates this on lines that start (case-insensitively) with
`heading:`, so a colon is always present; on a colon-free string this model
returns `[]`. -/
def afterFirstColon : Str → Str
  | [] => []
  | c :: cs => if c = colonChar then cs else afterFirstColon cs

/-- Python `'\n'.join(lines)`. -/
def joinNl : List Str → Str
  | [] => []
  | [s] => s
  | s :: rest => s ++ nlChar :: joinNl rest

/-- Whether a (stripped) line triggers the `heading:` marker branch of the
response parser: `line.lower().startswith('heading:') or
line.lower().startswith('1. heading:')`. -/
def headingMarkerLine (line : Str) : Bool :=
  (strOf "heading:").isPrefixOf (pyLower line) ||
    (strOf "1. heading:").isPrefixOf (pyLower line)

/-- Whether a (stripped) line triggers the `summary:` marker branch:
`line.lower().startswith('summary:') or line.lower().startswith('2. summary:')`. -/
def summaryMarkerLine (line : Str) : Bool :=
  (strOf "summary:").isPrefixOf (pyLower line) ||
    (strOf "2. summary:").isPrefixOf (pyLower line)

/-- The `current_section` variable of the response parser (`None`, `'heading'`
or `'summary'`). -/
inductive MarkerSection
  | noSection
  | inHeading
  | inSummary
deriving DecidableEq

/-- The loop state of the response parser: the `heading` accumulator, the
`current_section` variable and the `summary_lines` accumulator. -/
structure ParseState where
  heading : Str
  sec : MarkerSection
  summaryLines : List Str
deriving DecidableEq

/-- One iteration of the parsing loop shared by
`SummarizeChatTool._generate_summary` and
`SummarizeAndStoreTool._generate_summary` (the two files contain the identical
loop). -/
def processLine (st : ParseState) (raw : Str) : ParseState :=
  let line := pyStrip raw
  if headingMarkerLine line then
    { st with heading := pyStrip (afterFirstColon line), sec := .inHeading }
  else if summaryMarkerLine line then
    { st with sec := .inSummary }
  else if st.sec = .inSummary ∧ line ≠ [] then
    { st with summaryLines := st.summaryLines ++ [line] }
  else if st.sec = .inHeading ∧ line ≠ [] ∧ st.heading = [] then
    { st with heading := line }
  else
    st

/-- The fixed placeholder heading used when parsing leaves the heading empty. -/
def placeholderHeading : Str := strOf "Technical Discussion Summary"

/-- Parsing of the summarization-service response into `(heading, summary)`:
`lines = content.strip().split('\n')`, the marker-scanning loop, then the
fallbacks `summary = '\n'.join(summary_lines) if summary_lines else content`,
`if not heading: heading = "Technical Discussion Summary"`,
`if not summary: summary = content`. -/
def parseSummaryResponse (content : Str) : Str × Str :=
  let lines := splitOnNl (pyStrip content)
  let st := lines.foldl processLine ⟨[], .noSection, []⟩
  let summary := if st.summaryLines ≠ [] then joinNl st.summaryLines else content
  let heading := if st.heading = [] then placeholderHeading else st.heading
  let summary2 := if summary = [] then content else summary
  (heading, summary2)

/-- The fallback summary built in the `except` branch of `_generate_summary`:
`f"Chat log with {len(chat_log)} messages. Failed to generate AI summary: {str(e)}"`. -/
def fallbackSummary (chatLogLen : Nat) (reason : Str) : Str :=
  strOf "Chat log with " ++ strOf (toString chatLogLen) ++
    strOf " messages. Failed to generate AI summary: " ++ reason

/-- The fixed placeholder heading of the remote-failure fallback branch. -/
def fallbackHeading : Str := strOf "Developer Chat Summary"

/-- `_generate_summary` as a function of the chat-completion outcome (the
remote call either returns a response text or raises).  This function is
shared verbatim by `SummarizeChatTool` and `SummarizeAndStoreTool`, whose
`_generate_summary` bodies are identical. -/
def generateSummary (completion : Except Str Str) (chatLog : List Str) :
    Str × Str :=
  match completion with
  | .ok content => parseSummaryResponse content
  | .error e => (fallbackHeading, fallbackSummary chatLog.length e)

/-- One row of the `memories` table (`id`, `heading`, `summary`, `embedding`,
`created_at`).  The database-generated UUID and the insert timestamp are both
abstracted to the store's insertion counter: `created_at` is monotonically
non-decreasing with insertion order, which is all the source relies on. -/
structure Memory where
  id : Nat
  heading : Str
  summary : Str
  embedding : List ℚ
  createdAt : Nat
deriving DecidableEq

/-- The state of the PostgreSQL store: the `memories` table in insertion order
(`created_at` ascending) plus the generator for the next id/timestamp. -/
structure StoreState where
  rows : List Memory
  nextId : Nat
deriving DecidableEq

/-- A freshly initialized store. -/
def emptyStore : StoreState := ⟨[], 0⟩

/-- `PostgresStore.store_memory`: a single transactional `INSERT ... RETURNING
id`.  `ioErr` is the outcome of the database round trip: on an exception the
transaction is rolled back (the caller keeps the old state) and the exception
is re-raised; otherwise the new row is appended and its id returned. -/
def storeMemory (st : StoreState) (heading summary : Str) (embedding : List ℚ)
    (ioErr : Option Str) : Except Str (StoreState × Nat) :=
  match ioErr with
  | some e => .error e
  | none =>
    .ok (⟨st.rows ++ [⟨st.nextId, heading, summary, embedding, st.nextId⟩],
          st.nextId + 1⟩, st.nextId)

/-- Insertion of a row into a list sorted by ascending distance to the query
embedding.  The new row is placed before the first row of greater-or-equal
distance. -/
def insertByDist (dist : List ℚ → List ℚ → ℚ) (q : List ℚ) (m : Memory) :
    List Memory → List Memory
  | [] => [m]
  | x :: xs =>
    if dist m.embedding q ≤ dist x.embedding q then m :: x :: xs
    else x :: insertByDist dist q m xs

/-- The `ORDER BY embedding <=> query` clause of `search_similar`: a stable
sort of the filtered rows by ascending distance.  The SQL has no secondary
sort key, so rows at equal distance keep their table (insertion) order — the
query text specifies nothing else about ties. -/
def sortByDist (dist : List ℚ → List ℚ → ℚ) (q : List ℚ) :
    List Memory → List Memory
  | [] => []
  | m :: ms => insertByDist dist q m (sortByDist dist q ms)

/-- `PostgresStore.search_similar`: `WHERE 1 - (embedding <=> q) >= threshold
ORDER BY embedding <=> q LIMIT limit`, returning `(similarity, row)` pairs
with `similarity = 1 - (embedding <=> q)`.  The pgvector distance operator
`<=>` is the parameter `dist`.  `dbErr` is the exception path: the method
catches any error and returns the empty list. -/
def searchSimilar (dist : List ℚ → List ℚ → ℚ) (st : StoreState)
    (q : List ℚ) (limit : Nat) (threshold : ℚ) (dbErr : Bool) :
    List (ℚ × Memory) :=
  if dbErr then []
  else
    let passing :=
      st.rows.filter (fun m => decide (threshold ≤ 1 - dist m.embedding q))
    ((sortByDist dist q passing).take limit).map
      (fun m => (1 - dist m.embedding q, m))

/-- `PostgresStore.fetch_recent_memories`: `ORDER BY created_at DESC LIMIT
limit`; `rows` is kept in insertion order, so the reversal lists most recent
first.  Any error is caught and yields the empty list. -/
def fetchRecentMemories (st : StoreState) (limit : Nat) (dbErr : Bool) :
    List Memory :=
  if dbErr then [] else st.rows.reverse.take limit

/-- `PostgresStore.get_memory_by_id`: `SELECT ... WHERE id = %s`; returns the
matching row if one exists and `None` otherwise, and also returns `None` when
the query itself raises (`dbErr`). -/
def getMemoryById (st : StoreState) (memoryId : Nat) (dbErr : Bool) :
    Option Memory :=
  if dbErr then none
  else st.rows.find? (fun m => m.id == memoryId)

/-- The result dictionary of `EmbedTextTool.run`. -/
structure EmbedRunResult where
  success : Bool
  embedding : Option (List ℚ)
  dimension : Option Nat
  error : Option Str
deriving DecidableEq

/-- `EmbedTextTool._generate_embedding`: calls the OpenAI embeddings endpoint
(the parameter `provider`, a function of the submitted text) and returns the
provider's vector as is.  The `normalize` argument is received but never used
by the body — no normalization is applied. -/
def EmbedTextTool.generateEmbedding (provider : Str → Except Str (List ℚ))
    (text : Str) (normalize : Bool) : Except Str (List ℚ) :=
  provider text

/-- `EmbedTextTool.run`: validates that `text` is non-empty, then returns the
generated embedding and its dimension; an exception from the provider is
caught and reported as a failure result. -/
def EmbedTextTool.run (provider : Str → Except Str (List ℚ)) (text : Str)
    (normalize : Bool) : EmbedRunResult :=
  if text = [] then
    ⟨false, none, none, some (strOf "text is required and cannot be empty")⟩
  else
    match EmbedTextTool.generateEmbedding provider text normalize with
    | .error e =>
      ⟨false, none, none, some (strOf "Failed to generate embedding: " ++ e)⟩
    | .ok emb => ⟨true, some emb, some emb.length, none⟩

/-- Squared Euclidean norm of a vector (used to state normalization facts
exactly over ℚ). -/
def dotProd : List ℚ → List ℚ → ℚ
  | a :: as, b :: bs => a * b + dotProd as bs
  | _, _ => 0

/-- Squared Euclidean norm. -/
def normSq (v : List ℚ) : ℚ := dotProd v v

/-- The OpenAI-side environment of a summarization call: whether
`ModelLoader.get_openai_client()` raises, and the outcome of
`client.chat.completions.create` (response text or exception). -/
structure OpenAIEnv where
  clientErr : Option Str
  completion : Except Str Str

/-- The result dictionary of `SummarizeChatTool.run`. -/
structure SummarizeRunResult where
  success : Bool
  heading : Option Str
  summary : Option Str
  error : Option Str
deriving DecidableEq

/-- `SummarizeChatTool.run`: validates `chat_log`, then produces
`(heading, summary)` via `_generate_summary`.  A failure to obtain the OpenAI
client propagates to the outer handler (`Failed to summarize chat: ...`); a
remote completion failure is absorbed inside `_generate_summary` by the
deterministic fallback, so the run still succeeds.  The `context` argument
only feeds the prompt text sent to the remote service. -/
def SummarizeChatTool.run (env : OpenAIEnv) (chatLog : List Str)
    (context : Str) : SummarizeRunResult :=
  if chatLog = [] then
    ⟨false, none, none, some (strOf "chat_log is required and cannot be empty")⟩
  else
    match env.clientErr with
    | some e => ⟨false, none, none, some (strOf "Failed to summarize chat: " ++ e)⟩
    | none =>
      let p := generateSummary env.completion chatLog
      ⟨true, some p.1, some p.2, none⟩

/-- The result dictionary of `StoreMemoryTool.run`. -/
structure StoreRunResult where
  success : Bool
  memoryId : Option Nat
  error : Option Str
deriving DecidableEq

/-- `StoreMemoryTool.run`: validates heading, summary and embedding are
non-empty, then inserts one Memory; a storage exception is caught and
reported (`Failed to store memory: ...`) with the store left unchanged. -/
def StoreMemoryTool.run (st : StoreState) (ioErr : Option Str)
    (heading summary : Str) (embedding : List ℚ) :
    StoreRunResult × StoreState :=
  if heading = [] then (⟨false, none, some (strOf "heading is required")⟩, st)
  else if summary = [] then (⟨false, none, some (strOf "summary is required")⟩, st)
  else if embedding = [] then (⟨false, none, some (strOf "embedding is required")⟩, st)
  else
    match storeMemory st heading summary embedding ioErr with
    | .error e => (⟨false, none, some (strOf "Failed to store memory: " ++ e)⟩, st)
    | .ok (st2, mid) => (⟨true, some mid, none⟩, st2)

/-- Per-step status of the pipeline (`{"completed": ..., "error": ...}`). -/
structure StepStatus where
  completed : Bool
  error : Option Str
deriving DecidableEq

/-- The `pipeline_steps` map of `MemoryPipelineTool.run`. -/
structure PipelineSteps where
  summarize : StepStatus
  embed : StepStatus
  store : StepStatus
deriving DecidableEq

/-- The initial `pipeline_steps` map: every step pending. -/
def initialSteps : PipelineSteps :=
  ⟨⟨false, none⟩, ⟨false, none⟩, ⟨false, none⟩⟩

/-- The result dictionary of `MemoryPipelineTool.run`.  Fields that a given
return path leaves out of the Python dictionary are `none`. -/
structure PipelineResult where
  success : Bool
  memoryId : Option Nat
  heading : Option Str
  summary : Option Str
  embeddingDimension : Option Nat
  error : Option Str
  steps : PipelineSteps
deriving DecidableEq

/-- Rendering of `Option` error strings inside Python f-strings
(`str(None) = "None"`). -/
def optErrStr (o : Option Str) : Str := o.getD (strOf "None")

/-- The step-2 text of `MemoryPipelineTool.run`:
`text_to_embed = f"{heading}\n\n{summary}"`. -/
def MemoryPipelineTool.textToEmbed (heading summary : Str) : Str :=
  heading ++ strOf "\n\n" ++ summary

/-- `MemoryPipelineTool.run`: the three-step pipeline
summarize → embed → store with per-step status tracking.  Each failing step
returns immediately with `success = False`, the partial `pipeline_steps` map
and the store state it had (no store attempt is made after an earlier step
fails; a failing store insert rolls back). -/
def MemoryPipelineTool.run (env : OpenAIEnv)
    (provider : Str → Except Str (List ℚ)) (ioErr : Option Str)
    (st : StoreState) (chatLog : List Str) (context : Str) :
    PipelineResult × StoreState :=
  if chatLog = [] then
    (⟨false, none, none, none, none,
      some (strOf "chat_log is required and cannot be empty"), initialSteps⟩, st)
  else
    let sres := SummarizeChatTool.run env chatLog context
    if sres.success = false then
      (⟨false, none, none, none, none,
        some (strOf "Summarization failed: " ++ optErrStr sres.error),
        { initialSteps with summarize := ⟨false, sres.error⟩ }⟩, st)
    else
      let heading := sres.heading.getD []
      let summary := sres.summary.getD []
      let steps1 := { initialSteps with summarize := ⟨true, none⟩ }
      let eres := EmbedTextTool.run provider
        (MemoryPipelineTool.textToEmbed heading summary) true
      if eres.success = false then
        (⟨false, none, none, none, none,
          some (strOf "Embedding generation failed: " ++ optErrStr eres.error),
          { steps1 with embed := ⟨false, eres.error⟩ }⟩, st)
      else
        let embedding := eres.embedding.getD []
        let dim := eres.dimension.getD 0
        let steps2 := { steps1 with embed := ⟨true, none⟩ }
        let sr := StoreMemoryTool.run st ioErr heading summary embedding
        if sr.1.success = false then
          (⟨false, none, none, none, none,
            some (strOf "Storage failed: " ++ optErrStr sr.1.error),
            { steps2 with store := ⟨false, sr.1.error⟩ }⟩, sr.2)
        else
          (⟨true, sr.1.memoryId, some heading, some summary, some dim, none,
            { steps2 with store := ⟨true, none⟩ }⟩, sr.2)

/-- The result dictionary of `SummarizeAndStoreTool.run`. -/
structure SASRunResult where
  success : Bool
  heading : Option Str
  summary : Option Str
  memoryId : Option Nat
  error : Option Str
deriving DecidableEq

/-- The hard-coded fallback vector of
`SummarizeAndStoreTool._generate_embedding`: `[0.0] * 1536`. -/
def zeroVector : List ℚ := List.replicate 1536 0

/-- `SummarizeAndStoreTool._generate_embedding`: calls the embeddings endpoint
on the given text; on any exception it does not fail but returns the
1536-dimensional zero vector. -/
def SummarizeAndStoreTool.generateEmbedding
    (embedder : Str → Except Str (List ℚ)) (text : Str) : List ℚ :=
  match embedder text with
  | .ok emb => emb
  | .error _ => zeroVector

/-- `SummarizeAndStoreTool.run` (the tool behind the server's
`summarize_chat_and_add_to_memory` / `ingest_memory` surface): validates
`chat_log`, generates `(heading, summary)`, generates an embedding **of the
summary only** (with the zero-vector fallback on provider failure), and
stores the memory.  Only a missing OpenAI client or a storage exception makes
the run fail (`Failed to summarize and store chat: ...`). -/
def SummarizeAndStoreTool.run (env : OpenAIEnv)
    (embedder : Str → Except Str (List ℚ)) (ioErr : Option Str)
    (st : StoreState) (chatLog : List Str) (context : Str) :
    SASRunResult × StoreState :=
  if chatLog = [] then
    (⟨false, none, none, none,
      some (strOf "chat_log is required and cannot be empty")⟩, st)
  else
    match env.clientErr with
    | some e =>
      (⟨false, none, none, none,
        some (strOf "Failed to summarize and store chat: " ++ e)⟩, st)
    | none =>
      let p := generateSummary env.completion chatLog
      let embedding := SummarizeAndStoreTool.generateEmbedding embedder p.2
      match storeMemory st p.1 p.2 embedding ioErr with
      | .error e =>
        (⟨false, none, none, none,
          some (strOf "Failed to summarize and store chat: " ++ e)⟩, st)
      | .ok (st2, mid) => (⟨true, some p.1, some p.2, some mid, none⟩, st2)

/-- One formatted memory of a `FetchContextTool` result (`id`, `heading`,
`summary`, `created_at`, `similarity_score`). -/
structure MemoryOut where
  id : Nat
  heading : Str
  summary : Str
  createdAt : Nat
  similarityScore : ℚ
deriving DecidableEq

/-- The result dictionary of `FetchContextTool.run`. -/
structure FetchRunResult where
  success : Bool
  memories : Option (List MemoryOut)
  totalFound : Option Nat
  searchTypeUsed : Option Str
  error : Option Str
deriving DecidableEq

/-- `FetchContextTool._semantic_search`: embeds the query (normalize defaults
to true in `EmbedTextTool.run`); if that fails, returns the empty list instead
of propagating the error; otherwise runs `search_similar` and attaches each
similarity score to its memory. -/
def FetchContextTool.semanticSearch (provider : Str → Except Str (List ℚ))
    (dist : List ℚ → List ℚ → ℚ) (dbErr : Bool) (st : StoreState)
    (query : Str) (limit : Nat) (threshold : ℚ) : List MemoryOut :=
  let er := EmbedTextTool.run provider query true
  if er.success = false then []
  else
    (searchSimilar dist st (er.embedding.getD []) limit threshold dbErr).map
      (fun p => ⟨p.2.id, p.2.heading, p.2.summary, p.2.createdAt, p.1⟩)

/-- `FetchContextTool._recent_search`: recent memories with a similarity score
of exactly 0. -/
def FetchContextTool.recentSearch (st : StoreState) (limit : Nat)
    (dbErr : Bool) : List MemoryOut :=
  (fetchRecentMemories st limit dbErr).map
    (fun m => ⟨m.id, m.heading, m.summary, m.createdAt, 0⟩)

/-- `FetchContextTool.run`: semantic search when `search_type == "semantic"`
and the query is non-empty, recent search otherwise; the result is wrapped as
a success dictionary with the memory count. -/
def FetchContextTool.run (provider : Str → Except Str (List ℚ))
    (dist : List ℚ → List ℚ → ℚ) (dbErr : Bool) (st : StoreState)
    (query : Str) (limit : Nat) (threshold : ℚ) (searchType : Str) :
    FetchRunResult :=
  let memories :=
    if searchType = strOf "semantic" ∧ query ≠ [] then
      FetchContextTool.semanticSearch provider dist dbErr st query limit threshold
    else
      FetchContextTool.recentSearch st limit dbErr
  ⟨true, some memories, some memories.length, some searchType, none⟩

/-- Membership in `insertByDist`: the inserted row joins the list. -/
theorem mem_insertByDist (dist : List ℚ → List ℚ → ℚ) (q : List ℚ) (m : Memory)
    (l : List Memory) (a : Memory) :
    a ∈ insertByDist dist q m l ↔ a = m ∨ a ∈ l := by
  induction l with
  | nil => simp [insertByDist]
  | cons x xs ih =>
    simp only [insertByDist]
    split
    · simp [List.mem_cons]
    · simp only [List.mem_cons, ih]
      tauto

/-- Inserting into a distance-sorted list keeps it sorted. -/
theorem sorted_insertByDist (dist : List ℚ → List ℚ → ℚ) (q : List ℚ)
    (m : Memory) (l : List Memory)
    (h : l.Pairwise (fun x y => dist x.embedding q ≤ dist y.embedding q)) :
    (insertByDist dist q m l).Pairwise
      (fun x y => dist x.embedding q ≤ dist y.embedding q) := by
  induction l with
  | nil => simp [insertByDist]
  | cons x xs ih =>
    rw [List.pairwise_cons] at h
    obtain ⟨hx, hxs⟩ := h
    simp only [insertByDist]
    split
    next hle =>
      rw [List.pairwise_cons]
      refine ⟨?_, List.pairwise_cons.mpr ⟨hx, hxs⟩⟩
      intro b hb
      rcases List.mem_cons.mp hb with rfl | hb2
      · exact hle
      · exact le_trans hle (hx b hb2)
    next hnle =>
      rw [List.pairwise_cons]
      refine ⟨?_, ih hxs⟩
      intro b hb
      rcases (mem_insertByDist dist q m xs b).mp hb with rfl | hb2
      · exact le_of_not_le hnle
      · exact hx b hb2

/-- `sortByDist` does not add or drop rows. -/
theorem mem_sortByDist (dist : List ℚ → List ℚ → ℚ) (q : List ℚ)
    (l : List Memory) (a : Memory) :
    a ∈ sortByDist dist q l ↔ a ∈ l := by
  induction l with
  | nil => simp [sortByDist]
  | cons x xs ih =>
    simp only [sortByDist]
    rw [mem_insertByDist]
    simp [ih]

/-- `sortByDist` sorts by ascending distance to the query. -/
theorem sorted_sortByDist (dist : List ℚ → List ℚ → ℚ) (q : List ℚ)
    (l : List Memory) :
    (sortByDist dist q l).Pairwise
      (fun x y => dist x.embedding q ≤ dist y.embedding q) := by
  induction l with
  | nil => simp [sortByDist]
  | cons x xs ih => exact sorted_insertByDist dist q x _ ih

/-- Claim C2 (amended): for every `search_similar` call, and any distance
operator, every item of the result has similarity score `1 - distance` at
least `threshold`, the scores are in non-increasing order, and the result has
at most `limit` items.  (The tie-break clause of the original claim is
refuted separately: the SQL query has no secondary sort key, so ties are not
reordered by recency.) -/
theorem search_similar_threshold_order_limit (dist : List ℚ → List ℚ → ℚ)
    (st : StoreState) (q : List ℚ) (limit : Nat) (thr : ℚ) (dbErr : Bool) :
    (∀ x ∈ searchSimilar dist st q limit thr dbErr, thr ≤ x.1)
    ∧ (searchSimilar dist st q limit thr dbErr).Pairwise (fun a b => b.1 ≤ a.1)
    ∧ (searchSimilar dist st q limit thr dbErr).length ≤ limit := by
  unfold searchSimilar
  split
  · simp
  · refine ⟨?_, ?_, ?_⟩
    · intro x hx
      simp only [List.mem_map] at hx
      obtain ⟨m, hm, rfl⟩ := hx
      have h1 : m ∈ sortByDist dist q
          (st.rows.filter (fun m => decide (thr ≤ 1 - dist m.embedding q))) :=
        List.take_subset _ _ hm
      rw [mem_sortByDist] at h1
      have h2 := (List.mem_filter.mp h1).2
      exact of_decide_eq_true h2
    · refine List.pairwise_map.mpr ?_
      refine List.Pairwise.imp ?_
        (List.Pairwise.sublist (List.take_sublist _ _) (sorted_sortByDist dist q _))
      intro a b hab
      exact sub_le_sub_left hab 1
    · rw [List.length_map, List.length_take]
      exact min_le_left _ _

/-- Claim C2 witness: a concrete consequence of
`search_similar_threshold_order_limit` at an empty store. -/
theorem search_similar_threshold_order_limit_witness :
    (searchSimilar (fun _ _ => 0) emptyStore [1] 5 0 false).length ≤ 5 :=
  (search_similar_threshold_order_limit (fun _ _ => 0) emptyStore [1] 5 0
    false).2.2

/-- A distance operator that puts every pair of vectors at distance 0; used to
exhibit score ties.  (Two rows with the same embedding are at equal distance
from any query under any distance operator; this constant one keeps the
arithmetic trivial.) -/
def distZero : List ℚ → List ℚ → ℚ := fun _ _ => 0

/-- First-inserted row of the tie counterexample (older: `created_at = 0`). -/
def tieRowA : Memory := ⟨0, strOf "h0", strOf "s0", [1], 0⟩

/-- Second-inserted row of the tie counterexample (newer: `created_at = 1`). -/
def tieRowB : Memory := ⟨1, strOf "h1", strOf "s1", [1], 1⟩

/-- A store holding the two tied rows in insertion order. -/
def tieStore : StoreState := ⟨[tieRowA, tieRowB], 2⟩

/-- The tie-break ordering asserted by the spec: among items with equal
scores, earlier items are more recent (larger `created_at`). -/
def recencyTieBreak (res : List (ℚ × Memory)) : Prop :=
  res.Pairwise (fun a b => a.1 = b.1 → b.2.createdAt < a.2.createdAt)

/-- Claim C2 counterexample: on a store with two rows of identical embeddings
(hence equal scores), `search_similar` returns them in insertion order —
oldest first — so the claimed most-recent-first tie-break does not hold.  The
SQL has no secondary `ORDER BY` term, so nothing reorders equal-distance
rows by recency. -/
theorem search_similar_ties_keep_insertion_order :
    searchSimilar distZero tieStore [1] 5 0 false = [(1, tieRowA), (1, tieRowB)]
    ∧ ¬ recencyTieBreak (searchSimilar distZero tieStore [1] 5 0 false) := by
  have h : searchSimilar distZero tieStore [1] 5 0 false
      = [(1, tieRowA), (1, tieRowB)] := by
    norm_num [searchSimilar, distZero, tieStore, sortByDist, insertByDist,
      List.filter, tieRowA, tieRowB]
  refine ⟨h, ?_⟩
  rw [h]
  simp [recencyTieBreak, tieRowA, tieRowB]

/-- Claim C7 (code-bug evidence): `EmbedTextTool` accepts a `normalize`
argument (documented as controlling normalization, defaulting to true) but its
`_generate_embedding` never uses it: the run result is identical for both flag
values, and with the provider returning `[3, 4]` the tool returns the raw
`[3, 4]` — whose squared norm is 25, not 1 — instead of the unit vector
`[3/5, 4/5]` the claim (and the divide-by-norm code in
`ModelLoader.get_embedding_model`, which no tool calls) prescribes. -/
theorem embed_text_normalize_flag_ignored :
    (∀ (provider : Str → Except Str (List ℚ)) (text : Str) (b1 b2 : Bool),
      EmbedTextTool.run provider text b1 = EmbedTextTool.run provider text b2)
    ∧ (EmbedTextTool.run (fun _ => .ok [3, 4]) (strOf "hello") true).embedding
        = some [3, 4]
    ∧ normSq [(3 : ℚ), 4] ≠ 1 := by
  refine ⟨fun provider text b1 b2 => rfl, rfl, ?_⟩
  norm_num [normSq, dotProd]

/-- Claim C8: when the remote summarization call fails, `_generate_summary`
does not raise: it returns the fixed placeholder heading `Developer Chat
Summary` together with a summary stating the chat-log message count and the
failure reason, and `SummarizeChatTool.run` consequently still reports
success with that fallback pair. -/
theorem summarize_remote_failure_fallback :
    ∀ (e m : Str) (rest : List Str) (context : Str),
      generateSummary (.error e) (m :: rest)
        = (fallbackHeading, fallbackSummary (m :: rest).length e)
      ∧ fallbackHeading = strOf "Developer Chat Summary"
      ∧ fallbackSummary (m :: rest).length e
          = strOf "Chat log with " ++ strOf (toString (m :: rest).length) ++
              strOf " messages. Failed to generate AI summary: " ++ e
      ∧ SummarizeChatTool.run ⟨none, .error e⟩ (m :: rest) context
          = ⟨true, some fallbackHeading,
              some (fallbackSummary (m :: rest).length e), none⟩ := by
  intro e m rest context
  exact ⟨rfl, rfl, rfl, rfl⟩

/-- Claim C9: both ingestion entry points fail immediately on an empty
`chat_log` with the validation error `chat_log is required and cannot be
empty`; in `MemoryPipelineTool` every pipeline step is still marked pending,
and in both tools the store state is returned unchanged — no store call is
made. -/
theorem empty_chat_log_validation_error :
    ∀ (env : OpenAIEnv) (provider embedder : Str → Except Str (List ℚ))
      (ioErr : Option Str) (st : StoreState) (context : Str),
      MemoryPipelineTool.run env provider ioErr st [] context
        = (⟨false, none, none, none, none,
            some (strOf "chat_log is required and cannot be empty"),
            initialSteps⟩, st)
      ∧ SummarizeAndStoreTool.run env embedder ioErr st [] context
        = (⟨false, none, none, none,
            some (strOf "chat_log is required and cannot be empty")⟩, st) := by
  intro env provider embedder ioErr st context
  exact ⟨rfl, rfl⟩

/-- Claim C10: `get_memory_by_id` returns `None` both when the query raises
and when no row carries the requested id, so the two outcomes are
indistinguishable at this interface. -/
theorem get_memory_by_id_error_and_missing_agree (st : StoreState)
    (memoryId : Nat) (habsent : ∀ m ∈ st.rows, m.id ≠ memoryId) :
    getMemoryById st memoryId true = none
    ∧ getMemoryById st memoryId false = none := by
  constructor
  · rfl
  · unfold getMemoryById
    simp only [Bool.false_eq_true, if_false]
    rw [List.find?_eq_none]
    intro m hm
    simp only [beq_iff_eq]
    exact habsent m hm

/-- A one-row store used to instantiate claim C10. -/
def c10Store : StoreState := ⟨[⟨0, strOf "h", strOf "s", [1], 0⟩], 1⟩

/-- Claim C10 witness: on a concrete one-row store, looking up an id that is
not present gives `none` both on the error path and on the success path. -/
theorem get_memory_by_id_error_and_missing_agree_witness :
    getMemoryById c10Store 5 true = none
    ∧ getMemoryById c10Store 5 false = none :=
  get_memory_by_id_error_and_missing_agree c10Store 5 (by decide)

/-- Claim C3: in semantic mode with a non-empty query, if the embedding
provider fails then `FetchContextTool.run` still succeeds and returns the
empty memory list — the embedding error is not propagated to the caller. -/
theorem semantic_retrieval_embed_failure_returns_empty :
    ∀ (provider : Str → Except Str (List ℚ)) (dist : List ℚ → List ℚ → ℚ)
      (dbErr : Bool) (st : StoreState) (query : Str) (limit : Nat) (thr : ℚ)
      (e : Str),
      query ≠ [] → provider query = .error e →
      FetchContextTool.run provider dist dbErr st query limit thr
          (strOf "semantic")
        = ⟨true, some [], some 0, some (strOf "semantic"), none⟩ := by
  intro provider dist dbErr st query limit thr e hq hp
  have hrun : EmbedTextTool.run provider query true
      = ⟨false, none, none,
          some (strOf "Failed to generate embedding: " ++ e)⟩ := by
    unfold EmbedTextTool.run EmbedTextTool.generateEmbedding
    rw [if_neg hq, hp]
  unfold FetchContextTool.run FetchContextTool.semanticSearch
  rw [if_pos ⟨rfl, hq⟩, hrun]
  rfl

/-- Claim C3 witness: a concrete retrieval with an unreachable embedding
provider returns a success result with no memories. -/
theorem semantic_retrieval_embed_failure_returns_empty_witness :
    FetchContextTool.run (fun _ => .error (strOf "provider unreachable"))
        distZero false emptyStore (strOf "x") 10 (1/10) (strOf "semantic")
      = ⟨true, some [], some 0, some (strOf "semantic"), none⟩ :=
  semantic_retrieval_embed_failure_returns_empty _ _ _ _ _ _ _ _
    (by decide) rfl

/-- A failing `StoreMemoryTool.run` always returns the store unchanged. -/
theorem store_tool_failure_keeps_state :
    ∀ (st : StoreState) (ioErr : Option Str) (h s : Str) (emb : List ℚ)
      (r : StoreRunResult) (st2 : StoreState),
      StoreMemoryTool.run st ioErr h s emb = (r, st2) →
      r.success = false → st2 = st := by
  intro st ioErr h s emb r st2 hEq hfail
  unfold StoreMemoryTool.run at hEq
  split at hEq
  · cases hEq; rfl
  · split at hEq
    · cases hEq; rfl
    · split at hEq
      · cases hEq; rfl
      · split at hEq
        · cases hEq; rfl
        · cases hEq; simp at hfail

/-- Claim C1 (amended): every failed run — of either ingestion entry point —
leaves the store unchanged; in particular an embed-step or store-step failure
of `MemoryPipelineTool` and a store-step failure of `SummarizeAndStoreTool`
insert no Memory row.  (The original universal claim is refuted separately:
in `SummarizeAndStoreTool` an embedding-provider failure does not fail the
run at all — the memory is stored with a zero-vector embedding.) -/
theorem failed_ingestion_leaves_store_unchanged :
    (∀ (env : OpenAIEnv) (provider : Str → Except Str (List ℚ))
       (ioErr : Option Str) (st : StoreState) (chatLog : List Str)
       (context : Str) (r : PipelineResult) (st2 : StoreState),
       MemoryPipelineTool.run env provider ioErr st chatLog context = (r, st2) →
       r.success = false → st2 = st)
    ∧ (∀ (env : OpenAIEnv) (embedder : Str → Except Str (List ℚ))
        (ioErr : Option Str) (st : StoreState) (chatLog : List Str)
        (context : Str) (r : SASRunResult) (st2 : StoreState),
        SummarizeAndStoreTool.run env embedder ioErr st chatLog context
          = (r, st2) →
        r.success = false → st2 = st) := by
  constructor
  · intro env provider ioErr st chatLog context r st2 hEq hfail
    unfold MemoryPipelineTool.run at hEq
    split at hEq
    · cases hEq; rfl
    · simp only [] at hEq
      split at hEq
      · cases hEq; rfl
      · split at hEq
        · cases hEq; rfl
        · split at hEq
          · cases hEq
            exact store_tool_failure_keeps_state st ioErr _ _ _ _ _ rfl
              (by assumption)
          · cases hEq; simp at hfail
  · intro env embedder ioErr st chatLog context r st2 hEq hfail
    unfold SummarizeAndStoreTool.run at hEq
    split at hEq
    · cases hEq; rfl
    · simp only [] at hEq
      split at hEq
      · cases hEq; rfl
      · split at hEq
        · cases hEq; rfl
        · cases hEq; simp at hfail

/-- An OpenAI environment whose completion response parses to the pair
`("H", "S")`. -/
def envHS : OpenAIEnv := ⟨none, .ok (strOf "Heading: H\nSummary:\nS")⟩

/-- An embedding provider whose remote call always fails. -/
def embedderDown : Str → Except Str (List ℚ) :=
  fun _ => .error (strOf "embedding provider unreachable")

/-- Claim C1 witness: a concrete `MemoryPipelineTool` run whose embed step
fails leaves the (empty) store empty. -/
theorem failed_ingestion_leaves_store_unchanged_witness :
    (MemoryPipelineTool.run envHS embedderDown none emptyStore
        [strOf "hi"] []).2 = emptyStore :=
  failed_ingestion_leaves_store_unchanged.1 envHS embedderDown none emptyStore
    [strOf "hi"] [] _ _ rfl (by decide)

/-- Claim C1 counterexample: in `SummarizeAndStoreTool` (the tool behind the
server's ingest surface) a failing embedding provider does not stop the
pipeline before the store step: the run reports success and a Memory row
holding the chat's summary — with the hard-coded zero-vector embedding — is
inserted, contradicting the claim that no row is visible after an embed-step
failure. -/
theorem sas_embed_provider_failure_still_stores :
    (SummarizeAndStoreTool.run envHS embedderDown none emptyStore
        [strOf "hi"] []).1.success = true
    ∧ (SummarizeAndStoreTool.run envHS embedderDown none emptyStore
        [strOf "hi"] []).2.rows.map Memory.embedding = [zeroVector]
    ∧ (SummarizeAndStoreTool.run envHS embedderDown none emptyStore
        [strOf "hi"] []).2.rows.map Memory.summary = [strOf "S"] := by
  refine ⟨rfl, rfl, rfl⟩

/-- An embedding provider that distinguishes the bare summary `"S"` (vector
`[7]`) from every other text (vector `[9]`), in particular from the
concatenation `"H\n\nS"`. -/
def summaryOnlyEmbedder : Str → Except Str (List ℚ) :=
  fun t => if t = strOf "S" then .ok [7] else .ok [9]

/-- Claim C4 counterexample: `SummarizeAndStoreTool` passes only the summary
to the embedding step.  With heading `"H"` and summary `"S"`, the stored
embedding is the provider's value for `"S"` (`[7]`), not its value for the
concatenation `"H\n\nS"` (`[9]`). -/
theorem sas_embeds_summary_only :
    generateSummary envHS.completion [strOf "hi"] = (strOf "H", strOf "S")
    ∧ summaryOnlyEmbedder
        (MemoryPipelineTool.textToEmbed (strOf "H") (strOf "S")) = .ok [9]
    ∧ (SummarizeAndStoreTool.run envHS summaryOnlyEmbedder none emptyStore
        [strOf "hi"] []).2.rows.map Memory.embedding = [[7]] := by
  refine ⟨by decide, rfl, rfl⟩

/-- Claim C4 (amended): in `MemoryPipelineTool`, once step 1 succeeds, the
only text submitted to the embedding provider is the concatenation
`heading ++ "\n\n" ++ summary` of the generated pair: two providers that
agree on that single string produce identical pipeline runs. -/
theorem pipeline_step2_embeds_heading_and_summary :
    ∀ (env : OpenAIEnv) (p p2 : Str → Except Str (List ℚ)) (ioErr : Option Str)
      (st : StoreState) (chatLog : List Str) (context : Str),
      chatLog ≠ [] → env.clientErr = none →
      p (MemoryPipelineTool.textToEmbed
          (generateSummary env.completion chatLog).1
          (generateSummary env.completion chatLog).2)
        = p2 (MemoryPipelineTool.textToEmbed
            (generateSummary env.completion chatLog).1
            (generateSummary env.completion chatLog).2) →
      MemoryPipelineTool.run env p ioErr st chatLog context
        = MemoryPipelineTool.run env p2 ioErr st chatLog context := by
  intro env p p2 ioErr st chatLog context hne hcl hp
  have hs : SummarizeChatTool.run env chatLog context
      = ⟨true, some (generateSummary env.completion chatLog).1,
          some (generateSummary env.completion chatLog).2, none⟩ := by
    unfold SummarizeChatTool.run
    rw [if_neg hne, hcl]
  have hemb : EmbedTextTool.run p
      (MemoryPipelineTool.textToEmbed
        (generateSummary env.completion chatLog).1
        (generateSummary env.completion chatLog).2) true
      = EmbedTextTool.run p2
        (MemoryPipelineTool.textToEmbed
          (generateSummary env.completion chatLog).1
          (generateSummary env.completion chatLog).2) true := by
    unfold EmbedTextTool.run EmbedTextTool.generateEmbedding
    rw [hp]
  unfold MemoryPipelineTool.run
  simp only [if_neg hne, hs, Option.getD_some]
  rw [hemb]

/-- Claim C4 witness: with the parsed pair `("H", "S")`, replacing the
distinguishing provider by the constant provider that returns its
`"H\n\nS"` value changes nothing — the pipeline never consults the provider
at the bare summary. -/
theorem pipeline_step2_embeds_heading_and_summary_witness :
    MemoryPipelineTool.run envHS summaryOnlyEmbedder none emptyStore
        [strOf "hi"] []
      = MemoryPipelineTool.run envHS (fun _ => .ok [9]) none emptyStore
          [strOf "hi"] [] :=
  pipeline_step2_embeds_heading_and_summary envHS summaryOnlyEmbedder
    (fun _ => .ok [9]) none emptyStore [strOf "hi"] [] (by decide) rfl rfl

/-- A line without a heading marker can only move the parser state to the
summary section or append summary lines: it can neither set a heading nor
enter the heading section. -/
theorem processLine_no_marker (st : ParseState) (raw : Str)
    (hm : headingMarkerLine (pyStrip raw) = false)
    (hheading : st.heading = []) (hsec : st.sec ≠ .inHeading) :
    (processLine st raw).heading = []
    ∧ (processLine st raw).sec ≠ .inHeading := by
  unfold processLine
  simp only [hm, Bool.false_eq_true, if_false]
  split
  · refine ⟨hheading, ?_⟩
    show MarkerSection.inSummary ≠ MarkerSection.inHeading
    decide
  · split
    · exact ⟨hheading, hsec⟩
    · split
      next h4 => exact absurd h4.1 hsec
      next => exact ⟨hheading, hsec⟩

/-- Invariant of the parsing loop: without heading markers the heading
accumulator stays empty. -/
theorem foldl_no_marker :
    ∀ (lines : List Str) (st : ParseState),
      st.heading = [] → st.sec ≠ .inHeading →
      (∀ raw ∈ lines, headingMarkerLine (pyStrip raw) = false) →
      (lines.foldl processLine st).heading = []
      ∧ (lines.foldl processLine st).sec ≠ .inHeading := by
  intro lines
  induction lines with
  | nil => intro st h1 h2 _; exact ⟨h1, h2⟩
  | cons raw rest ih =>
    intro st h1 h2 h
    simp only [List.foldl_cons]
    have hstep := processLine_no_marker st raw (h raw (by simp)) h1 h2
    exact ih (processLine st raw) hstep.1 hstep.2 (fun r hr => h r (by simp [hr]))

/-- Claim C5 (amended): when no line of the response carries a `heading:`
marker, the parsed heading is the fixed placeholder `Technical Discussion
Summary` — not the first non-empty line.  (The first-following-non-empty-line
rule only applies after a `heading:` marker whose own line yields an empty
heading.) -/
theorem no_heading_marker_gives_placeholder (content : Str)
    (h : ∀ raw ∈ splitOnNl (pyStrip content),
      headingMarkerLine (pyStrip raw) = false) :
    (parseSummaryResponse content).1 = placeholderHeading := by
  have hf := foldl_no_marker (splitOnNl (pyStrip content)) ⟨[], .noSection, []⟩
    rfl (by decide) h
  unfold parseSummaryResponse
  simp only [hf.1]
  simp

/-- Claim C5 witness: the marker-free response `Alpha beta\nGamma` parses to
the placeholder heading. -/
theorem no_heading_marker_gives_placeholder_witness :
    (parseSummaryResponse (strOf "Alpha beta\nGamma")).1 = placeholderHeading :=
  no_heading_marker_gives_placeholder (strOf "Alpha beta\nGamma") (by decide)

/-- Claim C5 counterexample: for the marker-free response
`Alpha beta\nGamma`, the claim predicts heading `Alpha beta` (its first
non-empty line), but the parser returns the placeholder
`Technical Discussion Summary`. -/
theorem no_marker_heading_is_not_first_line :
    parseSummaryResponse (strOf "Alpha beta\nGamma")
      = (placeholderHeading, strOf "Alpha beta\nGamma")
    ∧ placeholderHeading ≠ strOf "Alpha beta" := by decide

/-- The generated heading is never empty: both the parser (placeholder
fallback) and the remote-failure fallback produce non-empty headings. -/
theorem generateSummary_heading_ne_nil :
    ∀ (completion : Except Str Str) (chatLog : List Str),
      (generateSummary completion chatLog).1 ≠ [] := by
  intro completion chatLog
  cases completion with
  | error e => simp [generateSummary, fallbackHeading, strOf]
  | ok content =>
    unfold generateSummary parseSummaryResponse
    simp only []
    split
    next => decide
    next h => exact h

/-- The step-2 text is never empty (it contains the two newline characters). -/
theorem textToEmbed_ne_nil (h s : Str) :
    MemoryPipelineTool.textToEmbed h s ≠ [] := by
  simp [MemoryPipelineTool.textToEmbed, strOf]

/-- Claim C6 (amended): when the store step fails after summarize and embed
completed, the pipeline's failure result marks the first two steps completed
and records the storage error on the store step and in the error message,
and the store is unchanged — but the result does **not** carry the
previously-computed heading, summary or embedding (those fields are absent
from the failure dictionary). -/
theorem store_failure_reports_statuses_only :
    ∀ (env : OpenAIEnv) (p : Str → Except Str (List ℚ)) (e : Str)
      (st : StoreState) (chatLog : List Str) (context : Str) (emb : List ℚ),
      chatLog ≠ [] → env.clientErr = none →
      p (MemoryPipelineTool.textToEmbed
          (generateSummary env.completion chatLog).1
          (generateSummary env.completion chatLog).2) = .ok emb →
      emb ≠ [] →
      (generateSummary env.completion chatLog).2 ≠ [] →
      MemoryPipelineTool.run env p (some e) st chatLog context
        = (⟨false, none, none, none, none,
            some (strOf "Storage failed: " ++
              (strOf "Failed to store memory: " ++ e)),
            ⟨⟨true, none⟩, ⟨true, none⟩,
              ⟨false, some (strOf "Failed to store memory: " ++ e)⟩⟩⟩, st) := by
  intro env p e st chatLog context emb hne hcl hp hemb hsum
  have hs : SummarizeChatTool.run env chatLog context
      = ⟨true, some (generateSummary env.completion chatLog).1,
          some (generateSummary env.completion chatLog).2, none⟩ := by
    unfold SummarizeChatTool.run
    rw [if_neg hne, hcl]
  have he : EmbedTextTool.run p
      (MemoryPipelineTool.textToEmbed
        (generateSummary env.completion chatLog).1
        (generateSummary env.completion chatLog).2) true
      = ⟨true, some emb, some emb.length, none⟩ := by
    unfold EmbedTextTool.run EmbedTextTool.generateEmbedding
    rw [if_neg (textToEmbed_ne_nil _ _), hp]
  have hstore : StoreMemoryTool.run st (some e)
      (generateSummary env.completion chatLog).1
      (generateSummary env.completion chatLog).2 emb
      = (⟨false, none, some (strOf "Failed to store memory: " ++ e)⟩, st) := by
    unfold StoreMemoryTool.run storeMemory
    rw [if_neg (generateSummary_heading_ne_nil env.completion chatLog),
      if_neg hsum, if_neg hemb]
  unfold MemoryPipelineTool.run
  simp only [if_neg hne, hs, Option.getD_some, he, hstore]
  rfl

/-- Claim C6 witness: a concrete run with a failing store insert produces
exactly the failure dictionary of the amended claim, with the store
unchanged. -/
theorem store_failure_reports_statuses_only_witness :
    MemoryPipelineTool.run envHS (fun _ => .ok [1]) (some (strOf "db down"))
        emptyStore [strOf "hi"] []
      = (⟨false, none, none, none, none,
          some (strOf "Storage failed: " ++
            (strOf "Failed to store memory: " ++ strOf "db down")),
          ⟨⟨true, none⟩, ⟨true, none⟩,
            ⟨false, some (strOf "Failed to store memory: " ++
              strOf "db down")⟩⟩⟩,
        emptyStore) :=
  store_failure_reports_statuses_only envHS (fun _ => .ok [1])
    (strOf "db down") emptyStore [strOf "hi"] [] [1] (by decide) rfl rfl
    (by decide) (by decide)

/-- Claim C6 counterexample: in a concrete run whose store step fails after
summarize and embed succeeded, the returned failure result contains neither
the heading nor the summary nor the embedding dimension — contradicting the
claim that the previously-computed values are still returned. -/
theorem store_failure_result_omits_computed_fields :
    (MemoryPipelineTool.run envHS (fun _ => .ok [1]) (some (strOf "db down"))
        emptyStore [strOf "hi"] []).1.success = false
    ∧ (MemoryPipelineTool.run envHS (fun _ => .ok [1]) (some (strOf "db down"))
        emptyStore [strOf "hi"] []).1.heading = none
    ∧ (MemoryPipelineTool.run envHS (fun _ => .ok [1]) (some (strOf "db down"))
        emptyStore [strOf "hi"] []).1.summary = none
    ∧ (MemoryPipelineTool.run envHS (fun _ => .ok [1]) (some (strOf "db down"))
        emptyStore [strOf "hi"] []).1.embeddingDimension = none := by
  exact ⟨rfl, rfl, rfl, rfl⟩

end SuperMemory
